import Mathlib

/-!
Verification of the voice-agent backend relay (src/main.py): a shallow
embedding of the credential validation at module init, the `/chat` handler,
the `/stt` upload/submit/poll workflow, the `/tts` handler, the startup
cleanup sweep, and the `/health` route, together with theorems settling the
specified properties.
-/

namespace VoiceAgent

/-- Python truthiness of an optional string (`bool(x)` for `x : str | None`):
`None` and the empty string are falsy, every other string is truthy. -/
def pyBool : Option String → Bool
  | none => false
  | some s => s ≠ ""

/-- The process environment slice read at module init: the values of
`GROQ_API_KEY` and `ASSEMBLYAI_API_KEY` as returned by `os.getenv`
(`none` when the variable is absent). -/
structure Env where
  GROQ_API_KEY : Option String
  ASSEMBLYAI_API_KEY : Option String

/-- Module-init credential validation (src/main.py lines 16-24):
`if not GROQ_API_KEY: raise ValueError(...)`, then the same for
`ASSEMBLYAI_API_KEY`; on success the two key strings are available to the
handlers. A raised `ValueError` is modelled as `Except.error` with the
exception message. -/
def module_init (env : Env) : Except String (String × String) :=
  if ¬ pyBool env.GROQ_API_KEY then
    .error "GROQ_API_KEY not found in .env"
  else if ¬ pyBool env.ASSEMBLYAI_API_KEY then
    .error "ASSEMBLYAI_API_KEY not found in .env"
  else
    .ok (env.GROQ_API_KEY.getD "", env.ASSEMBLYAI_API_KEY.getD "")

/-- The JSON payload returned by the `/chat` handler: `{"response": ...}`. -/
structure ChatPayload where
  response : String
deriving DecidableEq

/-- The `/chat` handler (src/main.py lines 47-64). Obtaining the completion
(the remote call plus extraction of `completion.choices[0].message.content`)
is modelled as an `Except String String`: `.ok reply` when it yields a reply,
`.error e` when any exception with message `e` is raised. The handler's
`try/except` returns `{"response": reply}` on success and
`{"response": "Error: " + str(e)}` on any exception; it always returns a
payload, never re-raising. -/
def chat (completion : Except String String) : ChatPayload :=
  match completion with
  | .ok reply => ⟨reply⟩
  | .error e => ⟨"Error: " ++ e⟩

/-- The remote response to the audio upload request
(`POST https://api.assemblyai.com/v2/upload`): its HTTP status code and the
`upload_url` field of its JSON body. -/
structure UploadResp where
  status_code : Nat
  upload_url : String

/-- The remote response to the transcription submission request
(`POST https://api.assemblyai.com/v2/transcript`): its HTTP status code and
the `id` field of its JSON body. -/
structure TranscriptResp where
  status_code : Nat
  id : String

/-- The JSON body of one response from the per-job polling endpoint
(`GET https://api.assemblyai.com/v2/transcript/{id}`): its `status` string,
its `text` field, and its optional `error` field (read by the code via
`polling.get("error", ...)`). -/
structure PollResponse where
  status : String
  text : String
  error : Option String

/-- The value returned by the `/stt` handler: either `{"text": t}` or
`{"error": msg}`. -/
inductive SttResult where
  | text (t : String)
  | error (msg : String)
deriving DecidableEq

/-- What a run of the `/stt` handler did: the returned payload, whether the
transcription-submission request was issued, and how many polling requests
and how many `time.sleep(1)` calls were made. -/
structure SttTrace where
  result : SttResult
  submissionMade : Bool
  pollCount : Nat
  sleepCount : Nat
deriving DecidableEq

/-- `max_attempts = 60` (src/main.py line 108). -/
def max_attempts : Nat := 60

/-- The polling loop of `/stt` (src/main.py lines 111-126), with `fuel`
standing for `max_attempts - attempt` so that the guard `attempt <
max_attempts` becomes `fuel > 0`. `polls i` is the JSON body returned by the
i-th polling request (the Python loop polls at `attempt = 0, 1, ...`).
Returns the result together with the number of polling requests and of
sleeps performed:
- status `"completed"`: return `{"text": polling["text"]}`;
- status `"error"`: return `{"error": polling.get("error", "Transcription
  failed")}`;
- otherwise `time.sleep(1)`, increment `attempt`, loop; when the guard
  fails, return `{"error": "Transcription timeout"}`. -/
def pollLoopAux (polls : Nat → PollResponse) : Nat → Nat → SttResult × Nat × Nat
  | _, 0 => (.error "Transcription timeout", 0, 0)
  | attempt, fuel + 1 =>
    let polling := polls attempt
    if polling.status = "completed" then
      (.text polling.text, 1, 0)
    else if polling.status = "error" then
      (.error (polling.error.getD "Transcription failed"), 1, 0)
    else
      let r := pollLoopAux polls (attempt + 1) fuel
      (r.1, r.2.1 + 1, r.2.2 + 1)

/-- The `/stt` handler body after reading the uploaded bytes (src/main.py
lines 82-126), with the three remote interactions supplied as parameters:
the upload response, the submission response, and the polling endpoint's
body per attempt.
- non-200 upload: return `{"error": "Failed to upload audio"}` (no
  submission, no polling);
- non-200 submission: return `{"error": "Failed to request transcription"}`
  (no polling);
- otherwise run the polling loop from `attempt = 0` with cap
  `max_attempts`. -/
def speech_to_text (upload : UploadResp) (transcript_req : TranscriptResp)
    (polls : Nat → PollResponse) : SttTrace :=
  if upload.status_code ≠ 200 then
    ⟨.error "Failed to upload audio", false, 0, 0⟩
  else if transcript_req.status_code ≠ 200 then
    ⟨.error "Failed to request transcription", true, 0, 0⟩
  else
    let r := pollLoopAux polls 0 max_attempts
    ⟨r.1, true, r.2.1, r.2.2⟩

/-- A polling response whose status is neither terminal state. -/
def nonterminal (r : PollResponse) : Prop :=
  r.status ≠ "completed" ∧ r.status ≠ "error"

instance (r : PollResponse) : Decidable (nonterminal r) := by
  unfold nonterminal; infer_instance

/-- The `FileResponse` produced by `/tts` on success: the on-disk path of
the written file, the media type, the download filename, and the
`background` task (`None`, i.e. no post-send deletion). -/
structure TtsFileResponse where
  path : String
  media_type : String
  filename : String
  background : Option Unit
deriving DecidableEq

/-- The value returned by the `/tts` handler: the file response on success,
`{"error": str(e)}` when synthesis raised. -/
inductive TtsResult where
  | file (r : TtsFileResponse)
  | error (msg : String)
deriving DecidableEq

/-- The `/tts` handler (src/main.py lines 136-152). `u` is the freshly
generated `uuid.uuid4()` string for this request; `synth` is the outcome of
`gTTS(text, lang='en')` followed by `tts.save(...)` (`.error e` when it
raises with message `e`). On success the handler returns the written file
`temp_audio/{u}.mp3` with media type `audio/mpeg`, download filename
`speech.mp3`, and `background=None`. -/
def text_to_speech (u : String) (synth : Except String Unit) : TtsResult :=
  match synth with
  | .ok _ => .file ⟨"temp_audio/" ++ u ++ ".mp3", "audio/mpeg", "speech.mp3", none⟩
  | .error e => .error e

/-- The startup cleanup sweep (src/main.py lines 159-166): for each `.mp3`
file in the temp directory, `try: file.unlink() except: pass`. `files` is
the directory's `.mp3` listing; `unlink_ok f` tells whether deleting `f`
succeeds. Returns the files still present afterwards: each file is deleted
when its unlink succeeds, kept when it raises, and the sweep continues
either way. -/
def cleanup_old_files (unlink_ok : String → Bool) : List String → List String
  | [] => []
  | f :: rest =>
    if unlink_ok f then cleanup_old_files unlink_ok rest
    else f :: cleanup_old_files unlink_ok rest

/-- The JSON payload of `GET /health` (src/main.py lines 178-184). -/
structure HealthPayload where
  status : String
  groq_configured : Bool
  assemblyai_configured : Bool
deriving DecidableEq

/-- The `/health` handler: reports `"healthy"` plus the truthiness of the
two module-level credential values. -/
def health (groq assemblyai : Option String) : HealthPayload :=
  ⟨"healthy", pyBool groq, pyBool assemblyai⟩

/-! ## Loop lemmas -/

lemma pollLoopAux_completed (polls : Nat → PollResponse) :
    ∀ (j attempt fuel : Nat), j < fuel →
    (∀ i, i < j → nonterminal (polls (attempt + i))) →
    (polls (attempt + j)).status = "completed" →
    pollLoopAux polls attempt fuel =
      (.text (polls (attempt + j)).text, j + 1, j) := by
  intro j
  induction j with
  | zero =>
    intro attempt fuel hj hnt hc
    match fuel, hj with
    | fuel + 1, _ =>
      rw [Nat.add_zero] at hc
      simp [pollLoopAux, hc]
  | succ j ih =>
    intro attempt fuel hj hnt hc
    match fuel, hj with
    | fuel + 1, hj =>
      have h0 : nonterminal (polls attempt) := by
        have := hnt 0 (Nat.succ_pos j)
        rwa [Nat.add_zero] at this
      have hrec := ih (attempt + 1) fuel (Nat.lt_of_succ_lt_succ hj)
        (fun i hi => by
          have := hnt (i + 1) (Nat.succ_lt_succ hi)
          rwa [show attempt + (i + 1) = attempt + 1 + i by omega] at this)
        (by rwa [show attempt + 1 + j = attempt + (j + 1) by omega])
      simp only [pollLoopAux, if_neg h0.1, if_neg h0.2, hrec]
      rw [show attempt + 1 + j = attempt + (j + 1) by omega]

lemma pollLoopAux_error (polls : Nat → PollResponse) :
    ∀ (j attempt fuel : Nat), j < fuel →
    (∀ i, i < j → nonterminal (polls (attempt + i))) →
    (polls (attempt + j)).status = "error" →
    pollLoopAux polls attempt fuel =
      (.error ((polls (attempt + j)).error.getD "Transcription failed"),
        j + 1, j) := by
  intro j
  induction j with
  | zero =>
    intro attempt fuel hj hnt hc
    match fuel, hj with
    | fuel + 1, _ =>
      rw [Nat.add_zero] at hc
      simp [pollLoopAux, hc]
  | succ j ih =>
    intro attempt fuel hj hnt hc
    match fuel, hj with
    | fuel + 1, hj =>
      have h0 : nonterminal (polls attempt) := by
        have := hnt 0 (Nat.succ_pos j)
        rwa [Nat.add_zero] at this
      have hrec := ih (attempt + 1) fuel (Nat.lt_of_succ_lt_succ hj)
        (fun i hi => by
          have := hnt (i + 1) (Nat.succ_lt_succ hi)
          rwa [show attempt + (i + 1) = attempt + 1 + i by omega] at this)
        (by rwa [show attempt + 1 + j = attempt + (j + 1) by omega])
      simp only [pollLoopAux, if_neg h0.1, if_neg h0.2, hrec]
      rw [show attempt + 1 + j = attempt + (j + 1) by omega]

lemma speech_to_text_ok (upload : UploadResp) (transcript_req : TranscriptResp)
    (polls : Nat → PollResponse)
    (hu : upload.status_code = 200) (ht : transcript_req.status_code = 200) :
    speech_to_text upload transcript_req polls =
      ⟨(pollLoopAux polls 0 max_attempts).1, true,
        (pollLoopAux polls 0 max_attempts).2.1,
        (pollLoopAux polls 0 max_attempts).2.2⟩ := by
  simp [speech_to_text, hu, ht]

lemma cleanup_old_files_eq_filter (unlink_ok : String → Bool)
    (files : List String) :
    cleanup_old_files unlink_ok files =
      files.filter (fun f => !unlink_ok f) := by
  induction files with
  | nil => rfl
  | cons g rest ih =>
    cases hg : unlink_ok g <;> simp [cleanup_old_files, hg, ih]

lemma pollLoopAux_timeout (polls : Nat → PollResponse) :
    ∀ (fuel attempt : Nat),
    (∀ i, i < fuel → nonterminal (polls (attempt + i))) →
    pollLoopAux polls attempt fuel =
      (.error "Transcription timeout", fuel, fuel) := by
  intro fuel
  induction fuel with
  | zero => intro attempt _; rfl
  | succ fuel ih =>
    intro attempt hnt
    have h0 : nonterminal (polls attempt) := by
      have := hnt 0 (Nat.succ_pos fuel)
      rwa [Nat.add_zero] at this
    have hrec := ih (attempt + 1) (fun i hi => by
      have := hnt (i + 1) (Nat.succ_lt_succ hi)
      rwa [show attempt + (i + 1) = attempt + 1 + i by omega] at this)
    simp only [pollLoopAux, if_neg h0.1, if_neg h0.2, hrec]

/-! ## Claim theorems -/

/-- Claim C1: whenever the upload and submission both return 200 and the
polling endpoint first reaches status "completed" on attempt k with
k ≤ 60 (attempts numbered from 1; attempt k reads `polls (k-1)`), the `/stt`
handler returns the transcribed text of that response and makes exactly k
polling calls — none after attempt k. -/
theorem stt_completed_returns_text (upload : UploadResp)
    (transcript_req : TranscriptResp) (polls : Nat → PollResponse) (k : Nat)
    (hu : upload.status_code = 200) (ht : transcript_req.status_code = 200)
    (hk1 : 1 ≤ k) (hk : k ≤ 60)
    (hnt : ∀ i, i < k - 1 → nonterminal (polls i))
    (hc : (polls (k - 1)).status = "completed") :
    (speech_to_text upload transcript_req polls).result =
      .text (polls (k - 1)).text ∧
    (speech_to_text upload transcript_req polls).pollCount = k := by
  have hloop := pollLoopAux_completed polls (k - 1) 0 max_attempts
    (by unfold max_attempts; omega)
    (fun i hi => by simpa using hnt i hi)
    (by simpa using hc)
  rw [speech_to_text_ok upload transcript_req polls hu ht, hloop]
  constructor
  · show SttResult.text (polls (0 + (k - 1))).text =
      SttResult.text (polls (k - 1)).text
    rw [Nat.zero_add]
  · show (k - 1) + 1 = k
    omega

/-- Witness for C1: a concrete run where the second poll is "completed". -/
theorem stt_completed_returns_text_witness :
    (speech_to_text ⟨200, "u"⟩ ⟨200, "tid"⟩
        (fun i => if i = 0 then ⟨"queued", "", none⟩
                  else ⟨"completed", "hello world", none⟩)).result =
      .text ((fun i : Nat => if i = 0 then (⟨"queued", "", none⟩ : PollResponse)
                  else ⟨"completed", "hello world", none⟩) (2 - 1)).text ∧
    (speech_to_text ⟨200, "u"⟩ ⟨200, "tid"⟩
        (fun i => if i = 0 then ⟨"queued", "", none⟩
                  else ⟨"completed", "hello world", none⟩)).pollCount = 2 :=
  stt_completed_returns_text ⟨200, "u"⟩ ⟨200, "tid"⟩
    (fun i => if i = 0 then ⟨"queued", "", none⟩
              else ⟨"completed", "hello world", none⟩) 2
    rfl rfl (by omega) (by omega)
    (by
      intro i hi
      have h0 : i = 0 := by omega
      subst h0
      show nonterminal ⟨"queued", "", none⟩
      decide)
    (by decide)

/-- Claim C2: whenever the upload and submission both return 200 and no
polling response within the 60-attempt cap has a terminal status, the `/stt`
handler returns the timeout error and makes exactly 60 polling calls. -/
theorem stt_timeout_after_60 (upload : UploadResp)
    (transcript_req : TranscriptResp) (polls : Nat → PollResponse)
    (hu : upload.status_code = 200) (ht : transcript_req.status_code = 200)
    (hnt : ∀ i, i < 60 → nonterminal (polls i)) :
    (speech_to_text upload transcript_req polls).result =
      .error "Transcription timeout" ∧
    (speech_to_text upload transcript_req polls).pollCount = 60 := by
  have hloop := pollLoopAux_timeout polls max_attempts 0
    (fun i hi => by simpa using hnt i (by simpa [max_attempts] using hi))
  rw [speech_to_text_ok upload transcript_req polls hu ht, hloop]
  exact ⟨rfl, rfl⟩

/-- Witness for C2: a concrete run where every poll reports "processing". -/
theorem stt_timeout_after_60_witness :
    (speech_to_text ⟨200, "u"⟩ ⟨200, "tid"⟩
        (fun _ => ⟨"processing", "", none⟩)).result =
      .error "Transcription timeout" ∧
    (speech_to_text ⟨200, "u"⟩ ⟨200, "tid"⟩
        (fun _ => ⟨"processing", "", none⟩)).pollCount = 60 :=
  stt_timeout_after_60 ⟨200, "u"⟩ ⟨200, "tid"⟩
    (fun _ => ⟨"processing", "", none⟩) rfl rfl
    (by
      intro i _
      show nonterminal ⟨"processing", "", none⟩
      decide)

/-- Claim C3: whenever the upload and submission both return 200 and the
polling endpoint first reaches status "error" on attempt k ≤ 60, the `/stt`
handler returns the response's error message — or the fallback
"Transcription failed" when the response supplies none — and makes exactly
k polling calls, none after attempt k. -/
theorem stt_error_returns_message (upload : UploadResp)
    (transcript_req : TranscriptResp) (polls : Nat → PollResponse) (k : Nat)
    (hu : upload.status_code = 200) (ht : transcript_req.status_code = 200)
    (hk1 : 1 ≤ k) (hk : k ≤ 60)
    (hnt : ∀ i, i < k - 1 → nonterminal (polls i))
    (he : (polls (k - 1)).status = "error") :
    (speech_to_text upload transcript_req polls).result =
      .error ((polls (k - 1)).error.getD "Transcription failed") ∧
    (speech_to_text upload transcript_req polls).pollCount = k := by
  have hloop := pollLoopAux_error polls (k - 1) 0 max_attempts
    (by unfold max_attempts; omega)
    (fun i hi => by simpa using hnt i hi)
    (by simpa using he)
  rw [speech_to_text_ok upload transcript_req polls hu ht, hloop]
  constructor
  · show SttResult.error ((polls (0 + (k - 1))).error.getD
        "Transcription failed") =
      SttResult.error ((polls (k - 1)).error.getD "Transcription failed")
    rw [Nat.zero_add]
  · show (k - 1) + 1 = k
    omega

/-- Witness for C3: a concrete run whose first poll reports status "error"
with a supplied message. -/
theorem stt_error_returns_message_witness :
    (speech_to_text ⟨200, "u"⟩ ⟨200, "tid"⟩
        (fun _ => ⟨"error", "", some "bad audio"⟩)).result =
      .error (((fun _ : Nat => (⟨"error", "", some "bad audio"⟩ :
          PollResponse)) (1 - 1)).error.getD "Transcription failed") ∧
    (speech_to_text ⟨200, "u"⟩ ⟨200, "tid"⟩
        (fun _ => ⟨"error", "", some "bad audio"⟩)).pollCount = 1 :=
  stt_error_returns_message ⟨200, "u"⟩ ⟨200, "tid"⟩
    (fun _ => ⟨"error", "", some "bad audio"⟩) 1
    rfl rfl (by omega) (by omega)
    (fun i hi => absurd hi (by omega))
    (by decide)

/-- Claim C4: whenever the upload request returns a non-200 status, the
`/stt` handler returns the payload with error "Failed to upload audio",
issues no transcription-submission request, and makes no polling call. -/
theorem stt_upload_fail (upload : UploadResp)
    (transcript_req : TranscriptResp) (polls : Nat → PollResponse)
    (hu : upload.status_code ≠ 200) :
    speech_to_text upload transcript_req polls =
      ⟨.error "Failed to upload audio", false, 0, 0⟩ := by
  simp [speech_to_text, hu]

/-- Witness for C4: a concrete run whose upload returns status 500. -/
theorem stt_upload_fail_witness :
    speech_to_text ⟨500, "u"⟩ ⟨200, "tid"⟩
        (fun _ => ⟨"processing", "", none⟩) =
      ⟨.error "Failed to upload audio", false, 0, 0⟩ :=
  stt_upload_fail ⟨500, "u"⟩ ⟨200, "tid"⟩
    (fun _ => ⟨"processing", "", none⟩) (by decide)

/-- Counterexample to C5 as stated: with both environment variables present
(`GROQ_API_KEY` set to the empty string, `ASSEMBLYAI_API_KEY` set to "k"),
module init still raises, because the code tests Python truthiness
(`if not GROQ_API_KEY`), not presence. -/
theorem startup_present_but_empty_fails :
    (Env.mk (some "") (some "k")).GROQ_API_KEY ≠ none ∧
    (Env.mk (some "") (some "k")).ASSEMBLYAI_API_KEY ≠ none ∧
    module_init (Env.mk (some "") (some "k")) =
      .error "GROQ_API_KEY not found in .env" :=
  ⟨by simp, by simp, rfl⟩

/-- Claim C5, amended: startup credential validation succeeds exactly when
both credential strings are present AND non-empty (Python-truthy); it
raises when either is absent or empty. -/
theorem startup_ok_iff_truthy (env : Env) :
    (module_init env).isOk =
      (pyBool env.GROQ_API_KEY && pyBool env.ASSEMBLYAI_API_KEY) := by
  unfold module_init
  cases hg : pyBool env.GROQ_API_KEY <;>
    cases ha : pyBool env.ASSEMBLYAI_API_KEY <;>
    simp [Except.isOk, Except.toBool]

/-- Claim C6: any failure while obtaining the completion is returned by the
`/chat` handler as a payload whose response field is the exception message
prefixed with "Error: "; the handler is total on every outcome (it returns
a payload, never re-raising). -/
theorem chat_error_wrapped (e : String) :
    chat (.error e) = ⟨"Error: " ++ e⟩ := rfl

/-- Claim C7: when synthesis succeeds, the `/tts` handler returns the file
written at the on-disk path containing the freshly generated identifier
`u`, with media type audio/mpeg, download filename speech.mp3, and no
background deletion task. -/
theorem tts_success_response (u : String) :
    text_to_speech u (.ok ()) =
      .file ⟨"temp_audio/" ++ u ++ ".mp3", "audio/mpeg", "speech.mp3",
        none⟩ := rfl

/-- Claim C8: when every deletion succeeds, the startup cleanup leaves the
temp directory empty; and independently of any failures, every file whose
deletion succeeds is removed — a failing deletion is ignored and does not
abort the sweep. -/
theorem cleanup_removes_all (files : List String)
    (unlink_ok : String → Bool) :
    ((∀ f ∈ files, unlink_ok f = true) →
      cleanup_old_files unlink_ok files = []) ∧
    (∀ f ∈ files, unlink_ok f = true →
      f ∉ cleanup_old_files unlink_ok files) := by
  rw [cleanup_old_files_eq_filter]
  constructor
  · intro h
    rw [List.filter_eq_nil_iff]
    intro f hf
    simp [h f hf]
  · intro f hf hok hmem
    have hp := List.of_mem_filter hmem
    simp [hok] at hp

/-- Witness for C8: a concrete two-file directory with all deletions
succeeding is left empty. -/
theorem cleanup_removes_all_witness :
    cleanup_old_files (fun _ => true) ["a.mp3", "b.mp3"] = [] :=
  (cleanup_removes_all ["a.mp3", "b.mp3"] (fun _ => true)).1
    (fun _ _ => rfl)

/-- Claim C9: whenever module init succeeded (both credentials present and
non-empty), the `/health` route reports status "healthy" with both
configured flags true; the flags cannot be false on a running process. -/
theorem health_flags_true (env : Env)
    (h : (module_init env).isOk = true) :
    health env.GROQ_API_KEY env.ASSEMBLYAI_API_KEY =
      ⟨"healthy", true, true⟩ := by
  rw [startup_ok_iff_truthy] at h
  simp only [Bool.and_eq_true] at h
  simp [health, h.1, h.2]

/-- Witness for C9: a concrete environment with both credentials set. -/
theorem health_flags_true_witness :
    health (Env.mk (some "g") (some "a")).GROQ_API_KEY
        (Env.mk (some "g") (some "a")).ASSEMBLYAI_API_KEY =
      ⟨"healthy", true, true⟩ :=
  health_flags_true (Env.mk (some "g") (some "a")) (by decide)

/-- Claim C10: in a run that exhausts the attempt cap without a terminal
status, the handler performs exactly 60 sleeps — one after every poll,
including the 60th — alongside its 60 polls. -/
theorem stt_timeout_sleeps_60 (upload : UploadResp)
    (transcript_req : TranscriptResp) (polls : Nat → PollResponse)
    (hu : upload.status_code = 200) (ht : transcript_req.status_code = 200)
    (hnt : ∀ i, i < 60 → nonterminal (polls i)) :
    (speech_to_text upload transcript_req polls).sleepCount = 60 ∧
    (speech_to_text upload transcript_req polls).pollCount = 60 := by
  have hloop := pollLoopAux_timeout polls max_attempts 0
    (fun i hi => by simpa using hnt i (by simpa [max_attempts] using hi))
  rw [speech_to_text_ok upload transcript_req polls hu ht, hloop]
  exact ⟨rfl, rfl⟩

/-- Witness for C10: the concrete all-"queued" run sleeps 60 times. -/
theorem stt_timeout_sleeps_60_witness :
    (speech_to_text ⟨200, "u"⟩ ⟨200, "tid"⟩
        (fun _ => ⟨"queued", "", none⟩)).sleepCount = 60 ∧
    (speech_to_text ⟨200, "u"⟩ ⟨200, "tid"⟩
        (fun _ => ⟨"queued", "", none⟩)).pollCount = 60 :=
  stt_timeout_sleeps_60 ⟨200, "u"⟩ ⟨200, "tid"⟩
    (fun _ => ⟨"queued", "", none⟩) rfl rfl
    (by
      intro i _
      show nonterminal ⟨"queued", "", none⟩
      decide)

end VoiceAgent
